import Mathlib

/-!
Verification of the conversation-orchestration core of the chatgeneral
repository, shallowly embedded in Lean 4.

The embedding mirrors the TypeScript source:
* the chat data model and `chatReducer` (react-ai-chat `useChat` hook);
* `processToolCalls`, `generateResponse`, `generateResponseInternal`,
  `submitUserMessage`, `revertToMessage`, `compressConversation`;
* the streaming decoder `parseCompletionStream` and the tool-call delta
  merger `applyDeltaToToolCalls`;
* the retry loop of `createCompletionFunction` with `isRateLimitError`;
* the output sink (`useOutputs`: `requestApproval`, `approveScript`,
  `denyScript`, `addOutput`);
* the argument-validation and emission phases of `runScriptTool.execute`.

External collaborators (the JSON parser built into the JS runtime, the
network, timers, React state cells) are modelled as explicit parameters
or scripted outcome lists; JavaScript `number` token counts are `Nat`,
costs are `Rat`.  JavaScript string falsiness is modelled by comparing
with the empty string where the source relies on it.
-/

/-! ## Data model (packages/react-ai-chat/src/types/index.ts) -/

/-- Function call within a tool call: `FunctionCall = {name, arguments}`.
The `arguments` field is the JSON-encoded argument string. -/
structure FunctionCall where
  name : String
  arguments : String
deriving DecidableEq, Repr

/-- Tool call from the assistant: `ToolCall = {id, type, function}`. -/
structure ToolCall where
  id : String
  type : String
  function : FunctionCall
deriving DecidableEq, Repr

/-- Usage/token statistics for a message: `TokenUsage`.  Token counts are
JavaScript numbers holding nonnegative integers; `estimatedCost` is a
JavaScript number modelled as a rational. -/
structure TokenUsage where
  promptTokens : Nat
  completionTokens : Nat
  estimatedCost : Rat
deriving DecidableEq, Repr

/-- Chat message: tagged union over the three roles.  `assistant` content is
kept as a `String` (the completion transport always yields a string);
optional fields are `Option`s, with `tool_calls` kept as a list where `[]`
plays the role of an absent field exactly where the source only tests
length/truthiness. -/
inductive ChatMessage where
  | user (content : String)
  | assistant (content : String) (tool_calls : List ToolCall)
      (model : Option String) (usage : Option TokenUsage)
  | toolResult (content : String) (tool_call_id : String) (name : Option String)
deriving DecidableEq, Repr

/-- Chat state: `Chat = {messages, totalUsage, model}`. -/
structure Chat where
  messages : List ChatMessage
  totalUsage : TokenUsage
  model : String
deriving DecidableEq, Repr

/-- Model configuration cost table entry: `ModelConfig.cost`. -/
structure ModelCost where
  prompt : Rat
  completion : Rat
deriving DecidableEq, Repr

/-- Model configuration: `ModelConfig = {model, label, cost}` (the display
label is irrelevant to the orchestrator and omitted). -/
structure ModelConfig where
  model : String
  cost : ModelCost
deriving DecidableEq, Repr

/-! ## Chat reducer (react-ai-chat useChat.ts) -/

/-- Actions of the chat reducer (`ChatAction`). -/
inductive ChatAction where
  | add_message (message : ChatMessage)
  | set_model (model : String)
  | increment_usage (usage : TokenUsage)
  | clear
  | revert_to_index (index : Int)
  | replace_with_summary (message : ChatMessage) (preservedUsage : TokenUsage)
deriving Repr

/-- Source `createEmptyChat`. -/
def createEmptyChat (model : String) : Chat :=
  { messages := [], totalUsage := { promptTokens := 0, completionTokens := 0, estimatedCost := 0 }, model := model }

/-- JavaScript `Array.prototype.slice(0, e)`: a negative end counts from the
end of the array (clamped at 0), an end beyond the length is clamped to the
length. -/
def jsSliceUpTo {α : Type} (l : List α) (e : Int) : List α :=
  let len : Int := l.length
  let bound : Int := if e < 0 then max (len + e) 0 else min e len
  l.take bound.toNat

/-- Source `chatReducer`.  `revert_to_index` performs
`messages.slice(0, index + 1)` with JavaScript slice semantics and no bounds
check. -/
def chatReducer (state : Chat) (action : ChatAction) : Chat :=
  match action with
  | .add_message message => { state with messages := state.messages ++ [message] }
  | .set_model model => { state with model := model }
  | .increment_usage usage =>
      { state with totalUsage :=
          { promptTokens := state.totalUsage.promptTokens + usage.promptTokens
            completionTokens := state.totalUsage.completionTokens + usage.completionTokens
            estimatedCost := state.totalUsage.estimatedCost + usage.estimatedCost } }
  | .clear => createEmptyChat state.model
  | .revert_to_index index =>
      { state with messages := jsSliceUpTo state.messages (index + 1) }
  | .replace_with_summary message preservedUsage =>
      { state with messages := [message], totalUsage := preservedUsage }

/-! ## Tool-call delta merging (parseCompletionStream.ts, applyDeltaToToolCalls) -/

/-- Delta fields of a streamed tool-call fragment.  The source reads
`deltaToolCall.index`, `.id`, `.type`, `.function.name`,
`.function.arguments`; absent or empty strings are both falsy in the
source's truthiness tests, so they are modelled as `""`. -/
structure ToolCallDeltaFunction where
  name : String
  arguments : String
deriving DecidableEq, Repr

/-- A single tool-call delta as delivered by a stream chunk. -/
structure ToolCallDelta where
  index : Nat
  id : String
  type : String
  function : ToolCallDeltaFunction
deriving DecidableEq, Repr

/-- Patch of an existing tool call by a delta (the `else` branch of the
source loop): a truthy id overwrites, a truthy name overwrites, truthy
argument text is appended. -/
def patchToolCall (e : ToolCall) (d : ToolCallDelta) : ToolCall :=
  let e1 := if d.id ≠ "" then { e with id := d.id } else e
  let e2 := if d.function.name ≠ "" then
      { e1 with function := { e1.function with name := d.function.name } } else e1
  if d.function.arguments ≠ "" then
    { e2 with function := { e2.function with arguments := e2.function.arguments ++ d.function.arguments } }
  else e2

/-- One iteration of the source loop in `applyDeltaToToolCalls`: an index at
or beyond the current length pushes a new entry, otherwise the entry at the
index is patched. -/
def applyDeltaStep (cur : List ToolCall) (d : ToolCallDelta) : List ToolCall :=
  if cur.length ≤ d.index then
    cur ++ [{ id := d.id, type := d.type,
              function := { name := d.function.name, arguments := d.function.arguments } }]
  else
    match cur.get? d.index with
    | some e => cur.set d.index (patchToolCall e d)
    | none => cur

/-- Source `applyDeltaToToolCalls`: an undefined accumulator starts empty,
then each delta of the chunk is applied in order. -/
def applyDeltaToToolCalls (current : Option (List ToolCall)) (delta : List ToolCallDelta) : List ToolCall :=
  delta.foldl applyDeltaStep (current.getD [])

/-! ## Stream decoding (parseCompletionStream.ts, parseCompletionStream) -/

/-- Usage counters of a stream chunk (`ORResponse.usage`), with the fields
optional as in the source (`prompt_tokens || 0`). -/
structure ORUsage where
  prompt_tokens : Option Nat
  completion_tokens : Option Nat
deriving DecidableEq, Repr

/-- Delta of a stream chunk choice (`choices[0].delta`). -/
structure ORDelta where
  content : Option String
  tool_calls : Option (List ToolCallDelta)
deriving DecidableEq, Repr

/-- A choice of a stream chunk; `delta = none` models a parsed choice object
without a `delta` member (the source tests `"delta" in choice`). -/
structure ORChoice where
  delta : Option ORDelta
deriving DecidableEq, Repr

/-- Shape of one parsed stream chunk (`ORResponse`).  `choices = none`
models parsed JSON without a `choices` array: there the source's
`parsed.choices[0]` access throws inside the catch-all, so the whole chunk
(usage included) is skipped. -/
structure ORResponse where
  choices : Option (List ORChoice)
  usage : Option ORUsage
deriving DecidableEq, Repr

/-- Result record of `parseCompletionStream`. -/
structure StreamParseResult where
  assistantContent : String
  toolCalls : Option (List ToolCall)
  promptTokens : Nat
  completionTokens : Nat
deriving DecidableEq, Repr

/-- Loop state of `parseCompletionStream`: the mutable locals of the source
function plus the trace of `onChunkProcessed` callback payloads. -/
structure StreamState where
  done : Bool
  assistantContent : String
  toolCalls : Option (List ToolCall)
  promptTokens : Nat
  completionTokens : Nat
  buffer : String
  trace : List String
deriving DecidableEq, Repr

/-- Initial loop state of `parseCompletionStream`. -/
def initStreamState : StreamState :=
  { done := false, assistantContent := "", toolCalls := none,
    promptTokens := 0, completionTokens := 0, buffer := "", trace := [] }

/-- JavaScript `String.prototype.replace` with a plain-string pattern
replaces only the first occurrence. -/
def jsReplaceFirst (s pat rep : String) : String :=
  match s.splitOn pat with
  | [] => s
  | [_] => s
  | h :: t => h ++ rep ++ String.intercalate pat t

/-- The `data:`-payload of a stream line, as computed by the source:
`line.replace("data: ", "").trim()`. -/
def dataOfLine (line : String) : String :=
  (jsReplaceFirst line "data: " "").trim

/-- Shared body of the two chunk-processing sites in the source (the main
loop and the leftover-buffer block): consume one successfully parsed chunk.
A chunk without a `choices` array is skipped entirely (the member access
throws and is caught); an empty `choices` array skips only the delta
handling; usage counters are accumulated, not overwritten. -/
def consumeParsedChunk (st : StreamState) (r : ORResponse) : StreamState :=
  match r.choices with
  | none => st
  | some cs =>
    let st1 :=
      match cs.head? with
      | none => st
      | some choice =>
        match choice.delta with
        | none => st
        | some delta =>
          let sta :=
            match delta.content with
            | none => st
            | some c =>
              if c = "" then st
              else
                let newContent := st.assistantContent ++ c
                { st with assistantContent := newContent, trace := st.trace ++ [newContent] }
          match delta.tool_calls with
          | none => sta
          | some tcs => { sta with toolCalls := some (applyDeltaToToolCalls sta.toolCalls tcs) }
    match r.usage with
    | none => st1
    | some u =>
      { st1 with promptTokens := st1.promptTokens + u.prompt_tokens.getD 0,
                 completionTokens := st1.completionTokens + u.completion_tokens.getD 0 }

/-- Processing of one complete line of the stream, parameterised by the
JSON parser of the runtime (`none` models a `JSON.parse` exception, which
the source catches and logs). -/
def processStreamLine (jsonParse : String → Option ORResponse) (st : StreamState) (line : String) : StreamState :=
  if line.trim = "" then st
  else if line.startsWith "data: " then
    let data := dataOfLine line
    if data = "[DONE]" then { st with done := true }
    else
      match jsonParse data with
      | none => st
      | some r => consumeParsedChunk st r
  else st

/-- One line-loop iteration including the `break` once `[DONE]` was seen. -/
def streamLineStep (jsonParse : String → Option ORResponse) (st : StreamState) (line : String) : StreamState :=
  if st.done then st else processStreamLine jsonParse st line

/-- Processing of one decoded byte chunk: the carry buffer is prepended,
the combined text split on newlines, the last (possibly incomplete) line
becomes the new buffer, and the complete lines are processed in order.
Once `done` is set no further chunks are read. -/
def processStreamChunk (jsonParse : String → Option ORResponse) (st : StreamState) (chunk : String) : StreamState :=
  if st.done then st
  else
    let combined := st.buffer ++ chunk
    let lines := combined.splitOn "\n"
    let st1 := { st with buffer := (lines.getLast?).getD "" }
    (lines.dropLast).foldl (streamLineStep jsonParse) st1

/-- The leftover-buffer block at the end of `parseCompletionStream`: a
nonempty trimmed buffer is parsed as a final chunk unless it is the
`[DONE]` sentinel. -/
def processTailBuffer (jsonParse : String → Option ORResponse) (st : StreamState) : StreamState :=
  if st.buffer.trim = "" then st
  else
    let line := st.buffer.trim
    if line.startsWith "data: " then
      let data := dataOfLine line
      if data = "[DONE]" then st
      else
        match jsonParse data with
        | none => st
        | some r => consumeParsedChunk st r
    else st

/-- Source `parseCompletionStream`, as a function of the list of decoded
text chunks the reader delivers.  Total by construction: every throwing
operation of the source sits inside its catch-alls, modelled by the
`Option`-valued parser. -/
def parseCompletionStream (jsonParse : String → Option ORResponse) (chunks : List String) : StreamParseResult :=
  let st := chunks.foldl (processStreamChunk jsonParse) initStreamState
  let st := processTailBuffer jsonParse st
  { assistantContent := st.assistantContent, toolCalls := st.toolCalls,
    promptTokens := st.promptTokens, completionTokens := st.completionTokens }

/-- A stream line the source skips without changing any accumulator: blank,
not `data: `-prefixed, carrying unparseable JSON, or parsing to a chunk
without a `choices` array. -/
def MalformedStreamLine (jsonParse : String → Option ORResponse) (line : String) : Prop :=
  line.trim = "" ∨
  (¬ line.startsWith "data: ") ∨
  (line.startsWith "data: " ∧ dataOfLine line ≠ "[DONE]" ∧
    (jsonParse (dataOfLine line) = none ∨
     ∃ r, jsonParse (dataOfLine line) = some r ∧ r.choices = none))

/-! ## Completion transport retry loop (src/chat/createCompletionFunction.ts) -/

/-- Source constant `MAX_RETRIES`. -/
def MAX_RETRIES : Nat := 3

/-- Source constant `INITIAL_RETRY_DELAY_MS` (10 seconds). -/
def INITIAL_RETRY_DELAY_MS : Nat := 10000

/-- Substring test modelling JavaScript `String.prototype.includes`. -/
def strIncludes (s pat : String) : Bool :=
  2 ≤ (s.splitOn pat).length

/-- Source `isRateLimitError`: HTTP 429, or an error message containing
"rate limit" case-insensitively. -/
def isRateLimitError (status : Nat) (errorMessage : String) : Bool :=
  status == 429 || strIncludes errorMessage.toLower "rate limit"

/-- Outcome of one `fetch` attempt, as seen by the retry loop.  `ok`
carries the parsed stream result (the source pipes `response.body` through
`parseCompletionStream`); `httpErr` carries the non-2xx status and the
error details the source extracts from the body; `netErr` carries a thrown
error's name and message (name "AbortError" for a cancellation). -/
inductive FetchOutcome where
  | ok (stream : StreamParseResult)
  | httpErr (status : Nat) (errorDetails : String)
  | netErr (name : String) (msg : String)
deriving Repr

/-- Observable side effects of the retry loop: `notice` is a call of the
`onPartialContent` callback, `wait` an `await sleep(ms)`. -/
inductive TransportEvent where
  | notice (s : String)
  | wait (ms : Nat)
deriving DecidableEq, Repr

/-- Final outcome of the completion function: the successful payload
(content, merged tool calls, usage), or a thrown error. -/
inductive CompletionOutcome where
  | success (content : String) (toolCalls : Option (List ToolCall))
      (promptTokens completionTokens : Nat)
  | thrown (name : String) (msg : String)
deriving DecidableEq, Repr

/-- The waiting notice the source reports through `onPartialContent`
before a rate-limit backoff (`Math.round(delayMs / 1000)` is exact here
because every delay is a multiple of 1000). -/
def rateLimitWaitingNotice (delayMs : Nat) (attempt : Nat) : String :=
  "⏳ Rate limit reached. Waiting " ++ toString (delayMs / 1000) ++
    " seconds before retrying (attempt " ++ toString (attempt + 1) ++ "/" ++
    toString MAX_RETRIES ++ ")..."

/-- The retry loop of `createCompletionFunction`, one scripted fetch
outcome per attempt: success breaks out and returns the parsed stream; a
rate-limit-classified HTTP error with retries left emits the waiting
notice, sleeps with exponential backoff and retries; other HTTP errors
throw; thrown `AbortError`s are rethrown without retry; other network
errors back off and retry silently while retries remain.  The returned
list is the trace of observable waits and notices. -/
def completionAttemptLoop : List FetchOutcome → Nat → List TransportEvent →
    List TransportEvent × CompletionOutcome
  | [], _, tr => (tr, .thrown "TypeError" "Failed to fetch")
  | o :: rest, attempt, tr =>
    match o with
    | .ok s => (tr, .success s.assistantContent s.toolCalls s.promptTokens s.completionTokens)
    | .httpErr status details =>
      if isRateLimitError status details && decide (attempt < MAX_RETRIES) then
        let delayMs := INITIAL_RETRY_DELAY_MS * 2 ^ attempt
        completionAttemptLoop rest (attempt + 1)
          (tr ++ [.notice (rateLimitWaitingNotice delayMs attempt), .wait delayMs])
      else (tr, .thrown "Error" ("OpenRouter API error: " ++ details))
    | .netErr name msg =>
      if name = "AbortError" then (tr, .thrown name msg)
      else if attempt < MAX_RETRIES then
        let delayMs := INITIAL_RETRY_DELAY_MS * 2 ^ attempt
        completionAttemptLoop rest (attempt + 1) (tr ++ [.wait delayMs])
      else (tr, .thrown name msg)

/-- The completion function over a scripted list of fetch outcomes,
starting at attempt 0 with an empty trace. -/
def runCompletionFunction (outcomes : List FetchOutcome) :
    List TransportEvent × CompletionOutcome :=
  completionAttemptLoop outcomes 0 []

/-! ## JSON values and tool execution (useChat.ts, processToolCalls) -/

/-- JSON values, the result type of the runtime's `JSON.parse` as consumed
by tool executors. -/
inductive JsonVal where
  | null
  | bool (b : Bool)
  | num (q : Rat)
  | str (s : String)
  | arr (xs : List JsonVal)
  | obj (fields : List (String × JsonVal))
deriving Repr

/-- A thrown JavaScript error, by name and message. -/
structure JsError where
  name : String
  message : String
deriving DecidableEq, Repr

/-- Return value of a tool's `execute`: a result string and optionally
injected extra messages. -/
structure ToolExecResult where
  result : String
  newMessages : Option (List ChatMessage)

/-- A registered tool as `processToolCalls` sees it: the function name of
its description and its async executor (exceptions modelled as `Except`). -/
structure RegisteredTool where
  name : String
  execute : JsonVal → Except JsError ToolExecResult

/-- Source `processToolCalls`.  For each tool call in order: the argument
string (or `"{}"` when empty) is fed to `JSON.parse` BEFORE the
try/catch that guards tool execution, so a parse failure escapes as an
exception (`Except.error`) and aborts the batch; an unknown tool name or a
throwing executor is converted to an error tool message and the batch
continues.  The abort signal is not raised inside this loop in any
modelled execution. -/
def processToolCalls (jsonParse : String → Except String JsonVal)
    (tools : List RegisteredTool) : List ToolCall → Except JsError (List ChatMessage)
  | [] => .ok []
  | toolCall :: rest =>
    let functionName := toolCall.function.name
    let functionArgs := toolCall.function.arguments
    match jsonParse (if functionArgs = "" then "\x7b\x7d" else functionArgs) with
    | .error e => .error { name := "SyntaxError", message := e }
    | .ok functionArgsParsed =>
      match tools.find? (fun t => t.name = functionName) with
      | none =>
        (processToolCalls jsonParse tools rest).map
          (fun ms => ChatMessage.toolResult ("Error: Tool not found: " ++ functionName)
            toolCall.id none :: ms)
      | some tool =>
        match tool.execute functionArgsParsed with
        | .ok r =>
          (processToolCalls jsonParse tools rest).map
            (fun ms => (r.newMessages.getD []) ++
              [ChatMessage.toolResult r.result toolCall.id (some functionName)] ++ ms)
        | .error err =>
          (processToolCalls jsonParse tools rest).map
            (fun ms => ChatMessage.toolResult
              ("Error executing tool \"" ++ functionName ++ "\": " ++ err.message)
              toolCall.id none :: ms)

/-! ## Generate protocol (useChat.ts: generateResponse, generateResponseInternal) -/

/-- Usage record of a completion response (`response.usage`), before cost
estimation. -/
structure TransportUsage where
  promptTokens : Nat
  completionTokens : Nat
deriving DecidableEq, Repr

/-- One scripted outcome of an `onCompletion` call (one hop).  `streamed`
is the last payload passed to the partial-content callback during the hop,
`none` when the callback was never invoked; for a `failure` (a rejected
promise) the name "AbortError" marks a cancellation. -/
inductive HopOutcome where
  | success (content : String) (toolCalls : List ToolCall)
      (usage : Option TransportUsage) (streamed : Option String)
  | failure (name : String) (msg : String) (streamed : Option String)

/-- Configuration of the orchestrator model: the runtime JSON parser, the
registered tools and the model price table. -/
structure GenConfig where
  jsonParse : String → Except String JsonVal
  tools : List RegisteredTool
  availableModels : List ModelConfig

/-- Source helper reading `response.usage?.promptTokens || 0`. -/
def usagePromptTokens (u : Option TransportUsage) : Nat :=
  (u.map (·.promptTokens)).getD 0

/-- Source helper reading `response.usage?.completionTokens || 0`. -/
def usageCompletionTokens (u : Option TransportUsage) : Nat :=
  (u.map (·.completionTokens)).getD 0

/-- Source `getEstimatedCostForModel`: first matching price-table entry, or
zero cost for an unknown model. -/
def getEstimatedCostForModel (availableModels : List ModelConfig) (model : String)
    (promptToks completionToks : Nat) : Rat :=
  match availableModels.find? (fun m => m.model = model) with
  | some m => (m.cost.prompt * promptToks + m.cost.completion * completionToks) / 1000000
  | none => 0

/-- Source `generateResponseInternal`: one hop per scripted outcome.  A
tool-carrying response appends the assistant message (prompt tokens known,
completion tokens zero), executes the batch, extends the request snapshot
and recurses; a plain response ends the recursion with a fully-priced
assistant message whose content falls back to the hop's streamed partial
text when the response content is empty.  Exceptions (transport failures,
the tool-batch parse escape) propagate to the caller. -/
def generateResponseInternal (cfg : GenConfig) :
    List HopOutcome → Chat → Except JsError (List ChatMessage)
  | [], _ => .error { name := "TypeError", message := "Failed to fetch" }
  | o :: rest, currentChat =>
    match o with
    | .failure name msg _ => .error { name := name, message := msg }
    | .success content toolCalls usage streamed =>
      if toolCalls ≠ [] then
        let assistantMessage : ChatMessage :=
          .assistant content toolCalls (some currentChat.model)
            (some { promptTokens := usagePromptTokens usage, completionTokens := 0, estimatedCost := 0 })
        match processToolCalls cfg.jsonParse cfg.tools toolCalls with
        | .error e => .error e
        | .ok toolResults =>
          let ret := assistantMessage :: toolResults
          let updatedChat := ret.foldl (fun ch m => chatReducer ch (.add_message m)) currentChat
          match generateResponseInternal cfg rest updatedChat with
          | .error e => .error e
          | .ok recursiveResponse => .ok (ret ++ recursiveResponse)
      else
        let p := usagePromptTokens usage
        let ct := usageCompletionTokens usage
        let estimatedCost := getEstimatedCostForModel cfg.availableModels currentChat.model p ct
        let contentFinal := if content = "" then streamed.getD "" else content
        .ok [.assistant contentFinal [] (some currentChat.model)
          (some { promptTokens := p, completionTokens := ct, estimatedCost := estimatedCost })]

/-- Observable state of the chat hook after a turn: the committed chat and
the error signal (the `error` state cell; `none` is the null signal). -/
structure HookState where
  chat : Chat
  error : Option String
deriving Repr

/-- The commit step of `generateResponse`: `add_message`, then
`increment_usage` exactly when the message is an assistant message with a
usage field. -/
def commitStep (c : Chat) (m : ChatMessage) : Chat :=
  let c1 := chatReducer c (.add_message m)
  match m with
  | .assistant _ _ _ (some u) => chatReducer c1 (.increment_usage u)
  | _ => c1

/-- The transient partial assistant message `generateResponse` keeps in
`partialResponseLocal`: the last streamed content of the first hop, as an
assistant message with zeroed usage. -/
def partialLocalMessages (model : String) (streamed : Option String) : List ChatMessage :=
  match streamed with
  | none => []
  | some s => [.assistant s [] (some model)
      (some { promptTokens := 0, completionTokens := 0, estimatedCost := 0 })]

/-- The catch block of `generateResponse`: the buffered partial messages
are committed as-is, a synthetic assistant message is appended ("Request
aborted" for an `AbortError`, the error text otherwise), and the error
signal stays null exactly for cancellations. -/
def generateCatch (currentChat : Chat) (streamed : Option String)
    (name msg : String) : HookState :=
  let updatedChat := (partialLocalMessages currentChat.model streamed).foldl
    (fun ch m => chatReducer ch (.add_message m)) currentChat
  let errContent := if name = "AbortError" then "Request aborted" else "Error: " ++ msg
  let chat2 := chatReducer updatedChat (.add_message (.assistant errContent [] none none))
  { chat := chat2,
    error := if name = "AbortError" then none else some ("Error generating response: " ++ msg) }

/-- Source `generateResponse`: the outer turn driver.  On a tool-carrying
first hop it executes the batch, recurses through
`generateResponseInternal` over the remaining scripted outcomes, and on
success commits every produced message (usage folded in per assistant
message); on a plain response it commits the single priced assistant
message; every rejection lands in the catch block.  The error signal is
reset at the start of the turn. -/
def generateResponse (cfg : GenConfig) (outcomes : List HopOutcome)
    (currentChat : Chat) : HookState :=
  match outcomes with
  | [] => generateCatch currentChat none "TypeError" "Failed to fetch"
  | o :: rest =>
    match o with
    | .failure name msg streamed => generateCatch currentChat streamed name msg
    | .success content toolCalls usage streamed =>
      if toolCalls ≠ [] then
        let assistantMessage : ChatMessage :=
          .assistant content toolCalls (some currentChat.model)
            (some { promptTokens := usagePromptTokens usage, completionTokens := 0, estimatedCost := 0 })
        match processToolCalls cfg.jsonParse cfg.tools toolCalls with
        | .error e => generateCatch currentChat streamed e.name e.message
        | .ok toolResults =>
          let ret1 := assistantMessage :: toolResults
          let updatedChat := ret1.foldl (fun ch m => chatReducer ch (.add_message m)) currentChat
          match generateResponseInternal cfg rest updatedChat with
          | .error e => generateCatch currentChat streamed e.name e.message
          | .ok recursiveResponse =>
            let ret := ret1 ++ recursiveResponse
            { chat := ret.foldl commitStep currentChat, error := none }
      else
        let p := usagePromptTokens usage
        let ct := usageCompletionTokens usage
        let estimatedCost := getEstimatedCostForModel cfg.availableModels currentChat.model p ct
        let assistantMessage : ChatMessage :=
          .assistant content [] (some currentChat.model)
            (some { promptTokens := p, completionTokens := ct, estimatedCost := estimatedCost })
        { chat := [assistantMessage].foldl commitStep currentChat, error := none }

/-- Source `submitUserMessage`: append the user message, then run the
Generate protocol on the updated chat. -/
def submitUserMessage (cfg : GenConfig) (content : String)
    (outcomes : List HopOutcome) (st : HookState) : HookState :=
  let updatedChat := chatReducer st.chat (.add_message (.user content))
  generateResponse cfg outcomes updatedChat

/-- A finite sequence of `submitUserMessage` calls, each with its user text
and the scripted transport outcomes of its turn. -/
def runTurns (cfg : GenConfig) (turns : List (String × List HopOutcome))
    (st : HookState) : HookState :=
  turns.foldl (fun s t => submitUserMessage cfg t.1 t.2 s) st

/-- Initial hook state: an empty chat for the default model, no error. -/
def initHookState (model : String) : HookState :=
  { chat := createEmptyChat model, error := none }

/-- Source `revertToMessage`: cancel any in-flight generation (no committed
effect in the model), dispatch `revert_to_index`, clear the error signal. -/
def revertToMessage (st : HookState) (messageIndex : Int) : HookState :=
  { chat := chatReducer st.chat (.revert_to_index messageIndex), error := none }

/-- Behaviour of `revertToMessage` as the specification words it: truncate
to a valid index, fail when the index is out of bounds.  Stated for
comparison with the source behaviour. -/
def revertToMessageSpec (c : Chat) (i : Int) : Option Chat :=
  if 0 ≤ i ∧ i < (c.messages.length : Int) then
    some { c with messages := c.messages.take (i.toNat + 1) }
  else none

/-- Source `compressConversation`: a no-op on an empty conversation;
otherwise one summarization call whose success replaces the history with
the single summary message and adds the call's own usage (tokens and
estimated cost) onto the preserved totals; an abort leaves the chat
unchanged with no error, any other failure leaves the chat unchanged and
raises the error signal. -/
def compressConversation (cfg : GenConfig) (outcome : HopOutcome)
    (st : HookState) : HookState :=
  if st.chat.messages = [] then st
  else
    match outcome with
    | .success content _ usage _ =>
      let p := usagePromptTokens usage
      let ct := usageCompletionTokens usage
      let estimatedCost := getEstimatedCostForModel cfg.availableModels st.chat.model p ct
      let summaryMessage : ChatMessage :=
        .assistant content [] (some st.chat.model)
          (some { promptTokens := p, completionTokens := ct, estimatedCost := estimatedCost })
      let preservedUsage : TokenUsage :=
        { promptTokens := st.chat.totalUsage.promptTokens + p
          completionTokens := st.chat.totalUsage.completionTokens + ct
          estimatedCost := st.chat.totalUsage.estimatedCost + estimatedCost }
      { chat := chatReducer st.chat (.replace_with_summary summaryMessage preservedUsage),
        error := none }
    | .failure name msg _ =>
      if name = "AbortError" then { chat := st.chat, error := none }
      else { chat := st.chat, error := some ("Error compressing conversation: " ++ msg) }

/-! ## Output sink (src/outputs/useOutputs.ts) -/

/-- Metadata of an output item; every field is optional and last-write-wins
(the source spreads `...o.metadata`). -/
structure OutputMetadata where
  pendingApproval : Option Bool := none
  approved : Option Bool := none
  denied : Option Bool := none
  serverHealthCheck : Option String := none
  serverError : Option String := none
  scriptType : Option String := none
deriving DecidableEq, Repr

/-- An output item of the sink: typed by a string tag exactly as in the
source (`'script'`, `'python-script'`, `'script-execution-output'`,
`'image'`, `'iframe'`). -/
structure OutputItem where
  id : String
  type : String
  content : String
  metadata : OutputMetadata
deriving DecidableEq, Repr

/-- State of the outputs hook: the visible items (newest first), the ids
holding a pending approval resolver (`approvalPromisesRef`), and the values
delivered to resolved approval promises in resolution order. -/
structure OutputsState where
  outputs : List OutputItem
  pending : List String
  resolutions : List (String × Bool)
deriving DecidableEq, Repr

/-- Source `addOutput`: prepend the new item (newest first).  The fresh
id/timestamp generation is external; the item arrives fully formed. -/
def addOutput (st : OutputsState) (item : OutputItem) : OutputsState :=
  { st with outputs := item :: st.outputs }

/-- Source `requestApproval`: register a pending resolver keyed by the
output id (`Map.set` keeps one resolver per id). -/
def requestApproval (st : OutputsState) (outputId : String) : OutputsState :=
  { st with pending := if outputId ∈ st.pending then st.pending else outputId :: st.pending }

/-- Source `approveScript`: resolve a pending promise with `true` and
remove the resolver immediately, then stamp approval metadata — but only on
items whose type is `'python-script'`. -/
def approveScript (st : OutputsState) (id : String) : OutputsState :=
  let st1 :=
    if id ∈ st.pending then
      { st with pending := st.pending.erase id, resolutions := st.resolutions ++ [(id, true)] }
    else st
  { st1 with outputs := st1.outputs.map (fun o =>
      if o.id = id ∧ o.type = "python-script" then
        { o with metadata := { o.metadata with pendingApproval := some false, approved := some true } }
      else o) }

/-- Source `denyScript`: resolve a pending promise with `false` and remove
the resolver immediately, then stamp denial metadata — again only on items
whose type is `'python-script'`. -/
def denyScript (st : OutputsState) (id : String) : OutputsState :=
  let st1 :=
    if id ∈ st.pending then
      { st with pending := st.pending.erase id, resolutions := st.resolutions ++ [(id, false)] }
    else st
  { st1 with outputs := st1.outputs.map (fun o =>
      if o.id = id ∧ o.type = "python-script" then
        { o with metadata := { o.metadata with pendingApproval := some false, denied := some true } }
      else o) }

/-! ## Script tool argument validation (src/chat/tools/runScript.ts) -/

/-- Parsed arguments of the `run_script` tool.  A missing script body and
an empty one are both falsy in the source's `if (!script)` test and are
modelled as `""`; the timeout is optional with the destructuring default
10 and is a plain number. -/
structure RunScriptParams where
  script : String
  scriptType : String
  timeout : Option Rat
deriving DecidableEq, Repr

/-- The JSON failure string for a missing script body
(`JSON.stringify({success: false, error: "Script content is required"})`). -/
def scriptRequiredErrorResult : String :=
  "\x7b\"success\":false,\"error\":\"Script content is required\"\x7d"

/-- The JSON failure string for an unrecognized script kind. -/
def scriptTypeErrorResult : String :=
  "\x7b\"success\":false,\"error\":\"scriptType must be 'python' or 'shell'\"\x7d"

/-- The output item `runScriptTool.execute` emits when both an emitter and
an approval channel are available: type `'script'`, pending approval,
health check `'checking'`. -/
def pendingScriptItem (script scriptType : String) : OutputItem :=
  { id := "", type := "script", content := script,
    metadata := { pendingApproval := some true, serverHealthCheck := some "checking",
                  scriptType := some scriptType } }

/-- Phase reached by `runScriptTool.execute` after its validation checks:
either a structured validation failure returned before any side effect, or
the emission of the pending-approval script item (followed by the health
probe, the approval wait and the server dispatch), or the fallback paths
without an approval channel. -/
inductive RunScriptPhase where
  | validationFailure (result : String)
  | awaitingApproval (emitted : OutputItem)
  | proceedsWithEmission (emitted : OutputItem)
  | proceedsWithoutEmission
deriving DecidableEq, Repr

/-- The validation and emission prefix of `runScriptTool.execute` (lines
62–154 of the source): validate the script body and script kind — the
timeout is never validated — then emit the approval item when the context
provides an emitter and an approval channel. -/
def runScriptStart (params : RunScriptParams) (hasEmitter hasApproval : Bool) : RunScriptPhase :=
  if params.script = "" then .validationFailure scriptRequiredErrorResult
  else if ¬ (params.scriptType = "python" ∨ params.scriptType = "shell") then
    .validationFailure scriptTypeErrorResult
  else if hasEmitter ∧ hasApproval then
    .awaitingApproval (pendingScriptItem params.script params.scriptType)
  else if hasEmitter then
    .proceedsWithEmission
      { id := "", type := "script", content := params.script,
        metadata := { scriptType := some params.scriptType } }
  else .proceedsWithoutEmission

/-! ## Usage accounting view (for the totalUsage invariant) -/

/-- Prompt-token contribution of a message to the conversation total: the
usage field of an assistant message, zero for messages without usage. -/
def messagePromptContribution : ChatMessage → Nat
  | .assistant _ _ _ (some u) => u.promptTokens
  | _ => 0

/-- Completion-token contribution of a message, zero without usage. -/
def messageCompletionContribution : ChatMessage → Nat
  | .assistant _ _ _ (some u) => u.completionTokens
  | _ => 0

/-- Sum of prompt tokens over the assistant messages of a history. -/
def sumPromptTokens : List ChatMessage → Nat
  | [] => 0
  | m :: rest => messagePromptContribution m + sumPromptTokens rest

/-- Sum of completion tokens over the assistant messages of a history. -/
def sumCompletionTokens : List ChatMessage → Nat
  | [] => 0
  | m :: rest => messageCompletionContribution m + sumCompletionTokens rest

/-- The usage-accounting invariant of a chat: the running totals equal the
per-message sums. -/
def UsageAccountedFor (c : Chat) : Prop :=
  sumPromptTokens c.messages = c.totalUsage.promptTokens ∧
  sumCompletionTokens c.messages = c.totalUsage.completionTokens

/-! ## Concrete fixtures used by witnesses and counterexamples -/

/-- A concrete runtime JSON parser instance that accepts exactly the empty
object literal, used to exercise `processToolCalls` on a malformed
argument string. -/
def jsonParseFixture : String → Except String JsonVal :=
  fun s => if s = "\x7b\x7d" then .ok (.obj []) else .error "Unexpected token"

/-- A registered tool whose executor always succeeds. -/
def echoTool : RegisteredTool :=
  { name := "demo_tool", execute := fun _ => .ok { result := "ok", newMessages := none } }

/-- A tool-call batch whose first call carries a malformed JSON argument
string and whose second call is well-formed. -/
def malformedToolCallBatch : List ToolCall :=
  [ { id := "call_1", type := "function", function := { name := "demo_tool", arguments := "\x7bbad" } },
    { id := "call_2", type := "function", function := { name := "demo_tool", arguments := "" } } ]

/-- A trivial orchestrator configuration for concrete evaluations. -/
def trivialGenConfig : GenConfig :=
  { jsonParse := fun _ => .error "no parse", tools := [], availableModels := [] }

/-- A one-message chat with nonzero totals. -/
def oneMessageChat : Chat :=
  { messages := [.user "hello"],
    totalUsage := { promptTokens := 3, completionTokens := 4, estimatedCost := 0 },
    model := "m" }

/-- Hook state holding `oneMessageChat` with a clear error signal. -/
def oneMessageHookState : HookState :=
  { chat := oneMessageChat, error := none }

/-- The type-`'script'` output item as emitted by `runScriptTool.execute`
for the script `print(42)` of kind python. -/
def emittedScriptItem : OutputItem :=
  { id := "output-1", type := "script", content := "print(42)",
    metadata := { pendingApproval := some true, serverHealthCheck := some "checking",
                  scriptType := some "python" } }

/-- Output-sink state holding only `emittedScriptItem`, no pending
tickets. -/
def scriptSinkState : OutputsState :=
  { outputs := [emittedScriptItem], pending := [], resolutions := [] }

/-- Sink state after `requestApproval` was called for the script item. -/
def scriptSinkPending : OutputsState :=
  requestApproval scriptSinkState "output-1"

/-- Sink state after the user approves the script item. -/
def scriptSinkApproved : OutputsState :=
  approveScript scriptSinkPending "output-1"

/-- Arguments for `run_script` with a timeout far outside the documented
1–60 second bounds. -/
def badTimeoutParams : RunScriptParams :=
  { script := "print(1)", scriptType := "python", timeout := some 1000 }

/-- A stream-chunk parser instance that fails on every payload. -/
def noneChunkDecoder : String → Option ORResponse :=
  fun _ => none

/-- A well-formed demo tool call: its empty argument string is parsed as
the empty object literal. -/
def demoToolCall : ToolCall :=
  { id := "call_demo", type := "function",
    function := { name := "demo_tool", arguments := "" } }

/-- Orchestrator configuration with the fixture parser and the demo
tool. -/
def abortDemoConfig : GenConfig :=
  { jsonParse := jsonParseFixture, tools := [echoTool], availableModels := [] }

/-- A scripted turn whose first hop succeeds with a tool call (streaming
"partial hop0" as its last partial content) and whose recursive hop is
cancelled after streaming "partial hop1". -/
def abortDemoOutcomes : List HopOutcome :=
  [ .success "thinking" [demoToolCall] none (some "partial hop0"),
    .failure "AbortError" "The user aborted a request." (some "partial hop1") ]

/-! ## Helper lemmas -/

theorem sumPromptTokens_append (a b : List ChatMessage) :
    sumPromptTokens (a ++ b) = sumPromptTokens a + sumPromptTokens b := by
  induction a with
  | nil => simp [sumPromptTokens]
  | cons m t ih => simp [sumPromptTokens, ih]; omega

theorem sumCompletionTokens_append (a b : List ChatMessage) :
    sumCompletionTokens (a ++ b) = sumCompletionTokens a + sumCompletionTokens b := by
  induction a with
  | nil => simp [sumCompletionTokens]
  | cons m t ih => simp [sumCompletionTokens, ih]; omega

theorem usageAccountedFor_addZero (c : Chat) (m : ChatMessage)
    (hp : messagePromptContribution m = 0) (hc : messageCompletionContribution m = 0)
    (h : UsageAccountedFor c) : UsageAccountedFor (chatReducer c (.add_message m)) := by
  obtain ⟨h1, h2⟩ := h
  constructor <;>
    simp [chatReducer, sumPromptTokens_append, sumCompletionTokens_append,
      sumPromptTokens, sumCompletionTokens, hp, hc, h1, h2]

theorem usageAccountedFor_commitStep (c : Chat) (m : ChatMessage)
    (h : UsageAccountedFor c) : UsageAccountedFor (commitStep c m) := by
  obtain ⟨h1, h2⟩ := h
  cases m with
  | assistant content tcs model usage =>
    cases usage with
    | none =>
      constructor <;>
        simp [commitStep, chatReducer, sumPromptTokens_append, sumCompletionTokens_append,
          sumPromptTokens, sumCompletionTokens, messagePromptContribution,
          messageCompletionContribution, h1, h2]
    | some u =>
      constructor <;>
        simp [commitStep, chatReducer, sumPromptTokens_append, sumCompletionTokens_append,
          sumPromptTokens, sumCompletionTokens, messagePromptContribution,
          messageCompletionContribution, h1, h2]
  | user content =>
    constructor <;>
      simp [commitStep, chatReducer, sumPromptTokens_append, sumCompletionTokens_append,
        sumPromptTokens, sumCompletionTokens, messagePromptContribution,
        messageCompletionContribution, h1, h2]
  | toolResult content id name =>
    constructor <;>
      simp [commitStep, chatReducer, sumPromptTokens_append, sumCompletionTokens_append,
        sumPromptTokens, sumCompletionTokens, messagePromptContribution,
        messageCompletionContribution, h1, h2]

theorem usageAccountedFor_foldl_commit (ms : List ChatMessage) (c : Chat)
    (h : UsageAccountedFor c) : UsageAccountedFor (ms.foldl commitStep c) := by
  induction ms generalizing c with
  | nil => simpa using h
  | cons m t ih => exact ih _ (usageAccountedFor_commitStep c m h)

theorem usageAccountedFor_generateCatch (c : Chat) (streamed : Option String)
    (name msg : String) (h : UsageAccountedFor c) :
    UsageAccountedFor (generateCatch c streamed name msg).chat := by
  have hpartial : UsageAccountedFor ((partialLocalMessages c.model streamed).foldl
      (fun ch m => chatReducer ch (.add_message m)) c) := by
    cases streamed with
    | none => simpa [partialLocalMessages] using h
    | some s =>
      simp only [partialLocalMessages, List.foldl]
      exact usageAccountedFor_addZero c _ rfl rfl h
  exact usageAccountedFor_addZero _ _ rfl rfl hpartial

theorem usageAccountedFor_generateResponse (cfg : GenConfig)
    (outcomes : List HopOutcome) (c : Chat) (h : UsageAccountedFor c) :
    UsageAccountedFor (generateResponse cfg outcomes c).chat := by
  cases outcomes with
  | nil => exact usageAccountedFor_generateCatch c none _ _ h
  | cons o rest =>
    cases o with
    | failure name msg streamed =>
      exact usageAccountedFor_generateCatch c streamed name msg h
    | success content toolCalls usage streamed =>
      simp only [generateResponse]
      split
      · split
        · exact usageAccountedFor_generateCatch c streamed _ _ h
        · split
          · exact usageAccountedFor_generateCatch c streamed _ _ h
          · exact usageAccountedFor_foldl_commit _ c h
      · exact usageAccountedFor_foldl_commit [_] c h

theorem usageAccountedFor_submitUserMessage (cfg : GenConfig) (content : String)
    (outcomes : List HopOutcome) (st : HookState) (h : UsageAccountedFor st.chat) :
    UsageAccountedFor (submitUserMessage cfg content outcomes st).chat := by
  unfold submitUserMessage
  exact usageAccountedFor_generateResponse cfg outcomes _
    (usageAccountedFor_addZero st.chat _ rfl rfl h)

theorem usageAccountedFor_runTurns (cfg : GenConfig)
    (turns : List (String × List HopOutcome)) (st : HookState)
    (h : UsageAccountedFor st.chat) : UsageAccountedFor (runTurns cfg turns st).chat := by
  induction turns generalizing st with
  | nil => simpa [runTurns] using h
  | cons t rest ih =>
    have := usageAccountedFor_submitUserMessage cfg t.1 t.2 st h
    simpa [runTurns] using ih _ this

/-! ## Claims -/

/-- C1: the claim says a malformed JSON argument string in a tool-call
batch is converted to a structured failure tool message and the batch
continues.  In the source, `JSON.parse(functionArgs || "{}")` sits BEFORE
the try/catch guarding tool execution, so the parse exception escapes
`processToolCalls` (the promise rejects, the remaining calls never run and
the turn ends in the catch block of `generateResponse`).  This theorem
evaluates the embedding at the failing input: the batch whose first call
carries the malformed argument string returns `Except.error` with the
`SyntaxError`, while the same well-formed second call on its own yields
the normal tool-result message. -/
theorem c1_malformed_arguments_escape :
    processToolCalls jsonParseFixture [echoTool] malformedToolCallBatch
      = .error { name := "SyntaxError", message := "Unexpected token" } ∧
    processToolCalls jsonParseFixture [echoTool]
        [{ id := "call_2", type := "function",
           function := { name := "demo_tool", arguments := "" } }]
      = .ok [ChatMessage.toolResult "ok" "call_2" (some "demo_tool")] := by
  exact ⟨rfl, rfl⟩

/-- C2: after any finite sequence of `submitUserMessage` turns (tool
calls, multi-hop recursion, transport failures and cancellations
included), `totalUsage.promptTokens` and `totalUsage.completionTokens`
equal the sums of the corresponding per-message usage fields over all
assistant messages of the history, messages without usage contributing
zero. -/
theorem c2_totalUsage_matches_message_sums (cfg : GenConfig) (model : String)
    (turns : List (String × List HopOutcome)) :
    sumPromptTokens (runTurns cfg turns (initHookState model)).chat.messages
      = (runTurns cfg turns (initHookState model)).chat.totalUsage.promptTokens ∧
    sumCompletionTokens (runTurns cfg turns (initHookState model)).chat.messages
      = (runTurns cfg turns (initHookState model)).chat.totalUsage.completionTokens := by
  have h0 : UsageAccountedFor (initHookState model).chat := ⟨rfl, rfl⟩
  exact usageAccountedFor_runTurns cfg turns _ h0

/-- C3: a successful `compressConversation` on a non-empty conversation
leaves exactly the single summary assistant message in the history, and
the new `totalUsage` is the pre-compression `totalUsage` plus the
summarization call's own prompt tokens, completion tokens and estimated
cost — never a reset to zero. -/
theorem c3_compress_single_summary_and_usage (cfg : GenConfig) (st : HookState)
    (content : String) (tcs : List ToolCall) (usage : Option TransportUsage)
    (streamed : Option String) (h : st.chat.messages ≠ []) :
    (compressConversation cfg (.success content tcs usage streamed) st).chat.messages
      = [ChatMessage.assistant content [] (some st.chat.model)
          (some { promptTokens := usagePromptTokens usage
                  completionTokens := usageCompletionTokens usage
                  estimatedCost := getEstimatedCostForModel cfg.availableModels st.chat.model
                    (usagePromptTokens usage) (usageCompletionTokens usage) })] ∧
    (compressConversation cfg (.success content tcs usage streamed) st).chat.totalUsage
      = { promptTokens := st.chat.totalUsage.promptTokens + usagePromptTokens usage
          completionTokens := st.chat.totalUsage.completionTokens + usageCompletionTokens usage
          estimatedCost := st.chat.totalUsage.estimatedCost
            + getEstimatedCostForModel cfg.availableModels st.chat.model
                (usagePromptTokens usage) (usageCompletionTokens usage) } := by
  constructor <;> simp [compressConversation, chatReducer, h]

/-- Witness for C3 at a concrete non-empty conversation. -/
theorem c3_compress_single_summary_and_usage_witness :
    oneMessageHookState.chat.messages ≠ [] ∧
    ((compressConversation trivialGenConfig (.success "summary" [] none none)
        oneMessageHookState).chat.messages
      = [ChatMessage.assistant "summary" [] (some oneMessageHookState.chat.model)
          (some { promptTokens := usagePromptTokens none
                  completionTokens := usageCompletionTokens none
                  estimatedCost := getEstimatedCostForModel trivialGenConfig.availableModels
                    oneMessageHookState.chat.model (usagePromptTokens none)
                    (usageCompletionTokens none) })] ∧
    (compressConversation trivialGenConfig (.success "summary" [] none none)
        oneMessageHookState).chat.totalUsage
      = { promptTokens := oneMessageHookState.chat.totalUsage.promptTokens + usagePromptTokens none
          completionTokens :=
            oneMessageHookState.chat.totalUsage.completionTokens + usageCompletionTokens none
          estimatedCost := oneMessageHookState.chat.totalUsage.estimatedCost
            + getEstimatedCostForModel trivialGenConfig.availableModels
                oneMessageHookState.chat.model (usagePromptTokens none)
                (usageCompletionTokens none) }) :=
  ⟨by decide,
   c3_compress_single_summary_and_usage trivialGenConfig oneMessageHookState
     "summary" [] none none (by decide)⟩

/-- C4 counterexample: the claim quantifies over every generation
cancelled via `abort`, but when the `AbortError` lands on a recursive hop
the catch block of `generateResponse` commits only `partialResponseLocal`
— the FIRST hop's last streamed text, which the recursive hops never
update — so the tool-call assistant message, the tool results and the
aborted hop's own partial content are all discarded, not committed.
Evaluated at a concrete two-hop turn: the committed history holds only the
stale "partial hop0" text and the synthetic "Request aborted" message; the
aborted hop's "partial hop1" and the tool-call assistant message of the
first hop appear nowhere (no error is surfaced, as the claim says). -/
theorem c4_recursive_abort_discards_content :
    (generateResponse abortDemoConfig abortDemoOutcomes oneMessageChat).error = none ∧
    (generateResponse abortDemoConfig abortDemoOutcomes oneMessageChat).chat.messages
      = oneMessageChat.messages
        ++ [ChatMessage.assistant "partial hop0" [] (some "m")
              (some { promptTokens := 0, completionTokens := 0, estimatedCost := 0 }),
            ChatMessage.assistant "Request aborted" [] none none] ∧
    ChatMessage.assistant "partial hop1" [] (some "m")
        (some { promptTokens := 0, completionTokens := 0, estimatedCost := 0 })
      ∉ (generateResponse abortDemoConfig abortDemoOutcomes oneMessageChat).chat.messages ∧
    ChatMessage.assistant "thinking" [demoToolCall] (some "m")
        (some { promptTokens := 0, completionTokens := 0, estimatedCost := 0 })
      ∉ (generateResponse abortDemoConfig abortDemoOutcomes oneMessageChat).chat.messages := by
  refine ⟨?_, ?_, ?_, ?_⟩ <;> decide

/-- C4 (amended): a cancellation surfaces no error and stops generation in
every case, and what is committed is `partialResponseLocal`: when the
abort lands during the FIRST hop, that is exactly the partial assistant
content accumulated up to the cancellation point, committed as-is together
with the synthetic "Request aborted" message, `totalUsage` unchanged; when
the abort lands on a recursive hop (after a tool-carrying first hop whose
batch succeeded), only the first hop's last streamed text is committed the
same way — the tool-call assistant message, the tool results and the
aborted hop's partial content are discarded. -/
theorem c4_abort_commits_first_hop_partial_no_error (cfg : GenConfig) (currentChat : Chat) :
    (∀ (msg : String) (streamed : Option String) (rest : List HopOutcome),
      (generateResponse cfg (.failure "AbortError" msg streamed :: rest) currentChat).error
          = none ∧
      (generateResponse cfg (.failure "AbortError" msg streamed :: rest) currentChat).chat.messages
        = currentChat.messages ++ partialLocalMessages currentChat.model streamed
            ++ [ChatMessage.assistant "Request aborted" [] none none] ∧
      (generateResponse cfg (.failure "AbortError" msg streamed :: rest) currentChat).chat.totalUsage
        = currentChat.totalUsage) ∧
    (∀ (content : String) (toolCalls : List ToolCall) (usage : Option TransportUsage)
        (s0 : Option String) (toolResults : List ChatMessage) (msg2 : String)
        (s1 : Option String) (rest2 : List HopOutcome),
      toolCalls ≠ [] →
      processToolCalls cfg.jsonParse cfg.tools toolCalls = .ok toolResults →
      (generateResponse cfg (.success content toolCalls usage s0
          :: .failure "AbortError" msg2 s1 :: rest2) currentChat).error = none ∧
      (generateResponse cfg (.success content toolCalls usage s0
          :: .failure "AbortError" msg2 s1 :: rest2) currentChat).chat.messages
        = currentChat.messages ++ partialLocalMessages currentChat.model s0
            ++ [ChatMessage.assistant "Request aborted" [] none none] ∧
      (generateResponse cfg (.success content toolCalls usage s0
          :: .failure "AbortError" msg2 s1 :: rest2) currentChat).chat.totalUsage
        = currentChat.totalUsage) := by
  constructor
  · intro msg streamed rest
    refine ⟨?_, ?_, ?_⟩ <;>
      cases streamed <;>
        simp [generateResponse, generateCatch, partialLocalMessages, chatReducer]
  · intro content toolCalls usage s0 toolResults msg2 s1 rest2 htc hpt
    refine ⟨?_, ?_, ?_⟩ <;>
      cases s0 <;>
        simp [generateResponse, htc, hpt, generateResponseInternal, generateCatch,
          partialLocalMessages, chatReducer]

/-- Witness for C4 (amended): the recursive-hop case at a concrete
tool-carrying first hop whose batch succeeds. -/
theorem c4_abort_commits_first_hop_partial_no_error_witness :
    ([demoToolCall] ≠ ([] : List ToolCall)) ∧
    processToolCalls abortDemoConfig.jsonParse abortDemoConfig.tools [demoToolCall]
      = .ok [ChatMessage.toolResult "ok" "call_demo" (some "demo_tool")] ∧
    ((generateResponse abortDemoConfig (.success "thinking" [demoToolCall] none
          (some "partial hop0") :: .failure "AbortError" "aborted" (some "partial hop1")
          :: []) oneMessageChat).error = none ∧
      (generateResponse abortDemoConfig (.success "thinking" [demoToolCall] none
          (some "partial hop0") :: .failure "AbortError" "aborted" (some "partial hop1")
          :: []) oneMessageChat).chat.messages
        = oneMessageChat.messages ++ partialLocalMessages oneMessageChat.model (some "partial hop0")
            ++ [ChatMessage.assistant "Request aborted" [] none none] ∧
      (generateResponse abortDemoConfig (.success "thinking" [demoToolCall] none
          (some "partial hop0") :: .failure "AbortError" "aborted" (some "partial hop1")
          :: []) oneMessageChat).chat.totalUsage = oneMessageChat.totalUsage) :=
  ⟨by decide, rfl,
   (c4_abort_commits_first_hop_partial_no_error abortDemoConfig oneMessageChat).2
     "thinking" [demoToolCall] none (some "partial hop0")
     [ChatMessage.toolResult "ok" "call_demo" (some "demo_tool")] "aborted"
     (some "partial hop1") [] (by decide) rfl⟩

/-- C5: the claim says `approve(id)`/`deny(id)` resolve the pending
promise, remove the resolver immediately, and stamp the Output Item's
approval metadata — including for the type-`'script'` items the registered
`run_script` tool emits.  The promise mechanics hold, but the metadata
stamp in `approveScript`/`denyScript` only matches items of the legacy
type `'python-script'`, so the `'script'` item emitted by `run_script`
keeps `pendingApproval: true` and never gains `approved`/`denied` — the
code contradicts the intent evidenced by the tool (which sets
`pendingApproval: true` expecting it cleared) and the approval UI (which
keys the buttons on `pendingApproval` of `'script'` items).  Evaluated at
the failing input: after `requestApproval` and `approveScript` the promise
is resolved once with `true` and the resolver is gone (a subsequent
`denyScript` resolves nothing), yet the item's metadata is unchanged. -/
theorem c5_approve_leaves_script_item_unstamped :
    scriptSinkApproved.resolutions = [("output-1", true)] ∧
    scriptSinkApproved.pending = [] ∧
    (denyScript scriptSinkApproved "output-1").resolutions = [("output-1", true)] ∧
    scriptSinkApproved.outputs = [emittedScriptItem] ∧
    emittedScriptItem.metadata.pendingApproval = some true ∧
    emittedScriptItem.metadata.approved = none := by
  refine ⟨?_, ?_, ?_, ?_, rfl, rfl⟩ <;> decide

/-- C6: folding `applyDeltaToToolCalls` over a delta sequence arriving in
index order 0, 0, 1, 0 with nonempty argument fragments yields exactly two
merged tool calls: entry 0 carries the concatenation of the three index-0
fragments in arrival order and entry 1 the index-1 fragment. -/
theorem c6_delta_merge_two_entries (id0 ty0 name0 a b c id1 ty1 name1 d : String)
    (hb : b ≠ "") (hc : c ≠ "") :
    applyDeltaToToolCalls none
        [ { index := 0, id := id0, type := ty0, function := { name := name0, arguments := a } },
          { index := 0, id := "", type := "", function := { name := "", arguments := b } },
          { index := 1, id := id1, type := ty1, function := { name := name1, arguments := d } },
          { index := 0, id := "", type := "", function := { name := "", arguments := c } } ]
      = [ { id := id0, type := ty0, function := { name := name0, arguments := (a ++ b) ++ c } },
          { id := id1, type := ty1, function := { name := name1, arguments := d } } ] ∧
    (applyDeltaToToolCalls none
        [ { index := 0, id := id0, type := ty0, function := { name := name0, arguments := a } },
          { index := 0, id := "", type := "", function := { name := "", arguments := b } },
          { index := 1, id := id1, type := ty1, function := { name := name1, arguments := d } },
          { index := 0, id := "", type := "", function := { name := "", arguments := c } } ]).length
      = 2 := by
  constructor <;>
    simp [applyDeltaToToolCalls, applyDeltaStep, patchToolCall, List.set, hb, hc]

/-- Witness for C6 at concrete fragments. -/
theorem c6_delta_merge_two_entries_witness :
    ("1" : String) ≠ "" ∧ ("\x7d" : String) ≠ "" ∧
    applyDeltaToToolCalls none
        [ { index := 0, id := "call_a", type := "function",
            function := { name := "tool_a", arguments := "\x7b\"x\":" } },
          { index := 0, id := "", type := "", function := { name := "", arguments := "1" } },
          { index := 1, id := "call_b", type := "function",
            function := { name := "tool_b", arguments := "\x7b\"y\":2\x7d" } },
          { index := 0, id := "", type := "", function := { name := "", arguments := "\x7d" } } ]
      = [ { id := "call_a", type := "function",
            function := { name := "tool_a", arguments := ("\x7b\"x\":" ++ "1") ++ "\x7d" } },
          { id := "call_b", type := "function",
            function := { name := "tool_b", arguments := "\x7b\"y\":2\x7d" } } ] :=
  ⟨by decide, by decide,
   (c6_delta_merge_two_entries "call_a" "function" "tool_a" "\x7b\"x\":" "1" "\x7d"
      "call_b" "function" "tool_b" "\x7b\"y\":2\x7d" (by decide) (by decide)).1⟩

/-- C7: a completion request whose backend returns HTTP 429 on the first
two attempts and succeeds on the third returns the successful parsed
result, and the observable trace consists of exactly two exponential
backoff waits (10 s then 20 s), each preceded by the human-readable
waiting notice delivered through the partial-content callback. -/
theorem c7_rate_limit_two_backoffs (b1 b2 : String) (s : StreamParseResult) :
    runCompletionFunction [.httpErr 429 b1, .httpErr 429 b2, .ok s]
      = ([.notice (rateLimitWaitingNotice 10000 0), .wait 10000,
          .notice (rateLimitWaitingNotice 20000 1), .wait 20000],
         .success s.assistantContent s.toolCalls s.promptTokens s.completionTokens) := by
  simp [runCompletionFunction, completionAttemptLoop, isRateLimitError,
    MAX_RETRIES, INITIAL_RETRY_DELAY_MS]

theorem processStreamLine_skip (p : String → Option ORResponse) (st : StreamState)
    (line : String) (h : MalformedStreamLine p line) :
    processStreamLine p st line = st := by
  unfold processStreamLine
  rcases h with h | h | ⟨hsw, hne, hp⟩
  · simp [h]
  · by_cases ht : line.trim = ""
    · simp [ht]
    · simp [ht, h]
  · by_cases ht : line.trim = ""
    · simp [ht]
    · rcases hp with hnone | ⟨r, hr, hch⟩
      · simp [ht, hsw, hne, hnone]
      · simp [ht, hsw, hne, hr, consumeParsedChunk, hch]

theorem streamLineStep_skip (p : String → Option ORResponse) (st : StreamState)
    (line : String) (h : MalformedStreamLine p line) :
    streamLineStep p st line = st := by
  by_cases hd : st.done
  · simp [streamLineStep, hd]
  · simp [streamLineStep, hd, processStreamLine_skip p st line h]

theorem foldl_streamLineStep_skip (p : String → Option ORResponse) (junk : String)
    (h : MalformedStreamLine p junk) (pre post : List String) (st : StreamState) :
    (pre ++ junk :: post).foldl (streamLineStep p) st
      = (pre ++ post).foldl (streamLineStep p) st := by
  induction pre generalizing st with
  | nil => simp [List.foldl, streamLineStep_skip p st junk h]
  | cons a t ih => simpa [List.foldl] using ih (streamLineStep p st a)

/-- C10: `parseCompletionStream` is total on every chunk sequence (the
embedding returns a `StreamParseResult` by construction; every throwing
access of the source sits inside its catch-alls) and treats malformed
content as specified: a line that is blank, lacks the `data: ` prefix,
carries unparseable JSON or parses without the expected `choices` shape
leaves the whole accumulator state unchanged; removing such a line from a
line sequence does not change the fold result at all, so the accumulated
content, merged tool calls and summed usage of the well-formed chunks are
still returned; the `[DONE]` sentinel sets the done flag, after which
whole chunks are ignored. -/
theorem c10_stream_malformed_skipped :
    (∀ (p : String → Option ORResponse) (st : StreamState) (line : String),
        MalformedStreamLine p line → streamLineStep p st line = st) ∧
    (∀ (p : String → Option ORResponse) (st : StreamState) (pre post : List String)
        (junk : String), MalformedStreamLine p junk →
        (pre ++ junk :: post).foldl (streamLineStep p) st
          = (pre ++ post).foldl (streamLineStep p) st) ∧
    (∀ (p : String → Option ORResponse) (st : StreamState) (line : String),
        line.startsWith "data: " → line.trim ≠ "" → dataOfLine line = "[DONE]" →
        processStreamLine p st line = { st with done := true }) ∧
    (∀ (p : String → Option ORResponse) (st : StreamState) (chunk : String),
        st.done = true → processStreamChunk p st chunk = st) := by
  refine ⟨fun p st line h => streamLineStep_skip p st line h,
          fun p st pre post junk h => foldl_streamLineStep_skip p junk h pre post st,
          fun p st line hsw hne hdone => ?_,
          fun p st chunk hd => by simp [processStreamChunk, hd]⟩
  unfold processStreamLine
  simp [hne, hsw, hdone]

/-- Witness for C10 on a concrete malformed line and parser. -/
theorem c10_stream_malformed_skipped_witness :
    MalformedStreamLine noneChunkDecoder "junk" ∧
    streamLineStep noneChunkDecoder initStreamState "junk" = initStreamState :=
  ⟨Or.inr (Or.inl (by decide)),
   c10_stream_malformed_skipped.1 noneChunkDecoder initStreamState "junk"
     (Or.inr (Or.inl (by decide)))⟩

/-- C8 counterexample: the claim says an out-of-bounds index makes
`revertToMessage` fail, but the source dispatches
`messages.slice(0, index + 1)` with no bounds check: on a one-message
conversation, index 5 — which the specification-side `revertToMessageSpec`
rejects — returns normally and leaves the messages untouched. -/
theorem c8_out_of_bounds_does_not_fail :
    revertToMessageSpec oneMessageChat 5 = none ∧
    (revertToMessage oneMessageHookState 5).chat.messages = oneMessageChat.messages ∧
    (revertToMessage oneMessageHookState 5).error = none := by
  refine ⟨by decide, by decide, rfl⟩

/-- C8 (amended): for an in-bounds index `0 ≤ i < messages.length`,
`revertToMessage i` yields exactly the first `i + 1` messages of the
pre-revert sequence, and `totalUsage` is unaffected for every index; an
out-of-bounds index does not fail — an index at or beyond the length
leaves the messages unchanged (JavaScript slice clamps the end). -/
theorem c8_revert_truncates_in_bounds (st : HookState) (i : Int) :
    (revertToMessage st i).chat.totalUsage = st.chat.totalUsage ∧
    (0 ≤ i → i < (st.chat.messages.length : Int) →
      (revertToMessage st i).chat.messages = st.chat.messages.take (i.toNat + 1)) ∧
    ((st.chat.messages.length : Int) ≤ i →
      (revertToMessage st i).chat.messages = st.chat.messages) := by
  refine ⟨rfl, ?_, ?_⟩
  · intro h0 hlt
    simp only [revertToMessage, chatReducer, jsSliceUpTo]
    have hneg : ¬ (i + 1 < 0) := by omega
    rw [if_neg hneg]
    have hmin : (min (i + 1) ((st.chat.messages.length : Nat) : Int)).toNat = i.toNat + 1 := by
      omega
    rw [hmin]
  · intro hge
    simp only [revertToMessage, chatReducer, jsSliceUpTo]
    have hneg : ¬ (i + 1 < 0) := by omega
    rw [if_neg hneg]
    have hmin : (min (i + 1) ((st.chat.messages.length : Nat) : Int)).toNat
        = st.chat.messages.length := by omega
    rw [hmin, List.take_length]

/-- Witness for C8 (amended) at a concrete in-bounds index. -/
theorem c8_revert_truncates_in_bounds_witness :
    (0 : Int) ≤ 0 ∧ (0 : Int) < (oneMessageHookState.chat.messages.length : Int) ∧
    (revertToMessage oneMessageHookState 0).chat.messages
      = oneMessageHookState.chat.messages.take ((0 : Int).toNat + 1) :=
  ⟨by decide, by decide,
   (c8_revert_truncates_in_bounds oneMessageHookState 0).2.1 (by decide) (by decide)⟩

/-- C9 counterexample: the claim says a timeout outside the documented
1–60 second bounds makes the script tool return a structured failure
before any side effect, but `runScriptTool.execute` never validates the
timeout: with `timeout = 1000` the tool passes validation and emits the
pending-approval output item (then probes the server and, on approval,
dispatches the out-of-range timeout to it). -/
theorem c9_bad_timeout_passes_validation :
    runScriptStart badTimeoutParams true true
      = .awaitingApproval (pendingScriptItem "print(1)" "python") := by
  decide

/-- C9 (amended): the tool validates before any side effect that the
script body is non-empty and the script kind is recognized, returning the
structured `{success: false, error}` JSON without emitting an output item
or contacting the server; the timeout is not validated client-side and is
forwarded to the server as-is. -/
theorem c9_validation_before_side_effects (params : RunScriptParams)
    (hasEmitter hasApproval : Bool) :
    (params.script = "" →
      runScriptStart params hasEmitter hasApproval
        = .validationFailure scriptRequiredErrorResult) ∧
    (params.script ≠ "" → params.scriptType ≠ "python" → params.scriptType ≠ "shell" →
      runScriptStart params hasEmitter hasApproval
        = .validationFailure scriptTypeErrorResult) := by
  constructor
  · intro h
    simp [runScriptStart, h]
  · intro h1 h2 h3
    simp [runScriptStart, h1, h2, h3]

/-- Witness for C9 (amended) at a concrete empty script body. -/
theorem c9_validation_before_side_effects_witness :
    (RunScriptParams.mk "" "python" none).script = "" ∧
    runScriptStart (RunScriptParams.mk "" "python" none) true true
      = .validationFailure scriptRequiredErrorResult :=
  ⟨rfl, (c9_validation_before_side_effects (RunScriptParams.mk "" "python" none) true true).1 rfl⟩
